import Mathlib

/-!
Verification development for the Barry BAO model code:
`barry/models/bao_power_Ding2018.py` (class `PowerDing2018`) and
`barry/models/bao_correlation_Seo2016.py` (class `CorrSeo2016`).

Arrays are embedded as functions from indices to real numbers: a numpy array
of shape `(nmu, nk)` becomes `ℕ → ℕ → ℝ` (first index mu, second index k),
matching the broadcasting of the source.  External numerical routines that
the source calls from scipy (`integrate.simps`, `splrep`/`splev`) and
quantities supplied by the base class `PowerSpectrumFit` (the mu grid, the
precomputed damping scales `get_pregen`, `integrate_mu`, `get_kprimefac`,
`get_muprime`) are carried as opaque fields of a model-environment
structure, since the claims under verification never depend on their
internals.
-/

noncomputable section

namespace Barry

/-- Cosmology-provider data (`self.camb` in the source): the native
wavenumber grid `ks`, the smoothing kernel, and the outputs of
`compute_basic_power_spectrum(om)` (smooth linear spectrum and wiggle
ratio), which depend on the unrounded `om`. -/
structure CosmoData where
  ks : ℕ → ℝ
  smoothing_kernel : ℕ → ℝ
  pk_smooth_lin : ℝ → ℕ → ℝ
  pk_ratio : ℝ → ℕ → ℝ

/-- Environment of a `PowerDing2018` instance: the cosmology provider, the
mu quadrature grid, the scipy quadrature and spline routines (opaque), the
base-class multipole integrator and AP-distortion helpers (opaque), the
precomputed damping scales `get_pregen("sigma_*_nl", om)`, and the
per-dataset input wavenumbers `data_dict[data_name]["ks_input"]`. -/
structure ModelEnv where
  camb : CosmoData
  mu : ℕ → ℝ
  nmu : ℕ
  simpsMu : (ℕ → ℝ) → ℝ
  spline : (ℕ → ℝ) → ℝ → ℝ
  integrate_mu : (ℕ → ℕ → ℝ) → (ℕ → ℝ) × (ℕ → ℝ) × (ℕ → ℝ)
  kprimefac : ℝ → ℕ → ℝ
  muprime : ℝ → ℕ → ℝ
  sigma_nl : ℝ → ℝ
  sigma_dd_nl : ℝ → ℝ
  sigma_sd_nl : ℝ → ℝ
  sigma_ss_nl : ℝ → ℝ
  ks_input : ℕ → ℝ

/-- Construction-time model configuration (immutable per instance). -/
structure Config where
  isotropic : Bool
  recon : Bool
  marg : Option String
  n_poly : ℕ
  poly_poles : List ℕ

/-- The evaluation-time parameter dictionary `p`.  The polynomial
amplitudes `a{pole}_{order}_{dataset}` are carried as the function `a`. -/
structure Params where
  om : ℝ
  b : ℝ
  beta : ℝ
  sigma_s : ℝ
  b_delta : ℝ
  alpha : ℝ
  epsilon : ℝ
  a : ℕ → ℕ → ℕ → ℝ

/-- Rounding of `x` to an integer as `np.round` does it: half-way cases go
to the nearest even integer, all other values to the nearest integer. -/
def roundHalfEven (x : ℝ) : ℤ :=
  haveI := Classical.propDecidable
  if Int.fract x = 1 / 2 then (if Even ⌊x⌋ then ⌊x⌋ else ⌊x⌋ + 1) else round x

/-- `np.round(x, decimals=5)`. -/
def nround5 (x : ℝ) : ℝ := (roundHalfEven (x * 100000) : ℝ) / 100000

/-- `PowerDing2018.get_damping(growth, om)` (source line 81):
`np.exp(-np.outer(1 + (2+growth)*growth*mu**2, ks**2) * sigma_nl)`. -/
def get_damping (env : ModelEnv) (growth om : ℝ) : ℕ → ℕ → ℝ := fun i j =>
  Real.exp (-((1 + (2 + growth) * growth * env.mu i ^ 2) * env.camb.ks j ^ 2 * env.sigma_nl om))

/-- `PowerDing2018.get_damping_dd(growth, om)` (source line 85). -/
def get_damping_dd (env : ModelEnv) (growth om : ℝ) : ℕ → ℕ → ℝ := fun i j =>
  Real.exp (-((1 + (2 + growth) * growth * env.mu i ^ 2) * env.camb.ks j ^ 2 * env.sigma_dd_nl om))

/-- `PowerDing2018.get_damping_sd(growth, om)` (source line 89). -/
def get_damping_sd (env : ModelEnv) (growth om : ℝ) : ℕ → ℕ → ℝ := fun i j =>
  Real.exp (-((1 + growth * env.mu i ^ 2) * env.camb.ks j ^ 2 * env.sigma_sd_nl om))

/-- `PowerDing2018.get_damping_ss(om)` (source line 93): the row `i` of the
tiled array is independent of `mu`. -/
def get_damping_ss (env : ModelEnv) (om : ℝ) : ℕ → ℕ → ℝ := fun _ j =>
  Real.exp (-(env.camb.ks j ^ 2 * env.sigma_ss_nl om))

/-- The wavenumber grid selected by the `data_name` argument of the
anisotropic damping getters: `camb.ks` when no data name is supplied,
otherwise `data_dict[data_name]["ks_input"]`. -/
def anisoKs (env : ModelEnv) (dataName : Bool) : ℕ → ℝ :=
  if dataName then env.ks_input else env.camb.ks

/-- `PowerDing2018.get_damping_aniso_par(growth, om, data_name)` (source
line 101).  The array is indexed `(k, mu)`. -/
def get_damping_aniso_par (env : ModelEnv) (growth om : ℝ) (dataName : Bool) :
    ℕ → ℕ → ℝ := fun j i =>
  Real.exp (-((1 + (2 + growth) * growth) * anisoKs env dataName j ^ 2 * env.mu i ^ 2
    * env.sigma_nl om))

/-- `PowerDing2018.get_damping_aniso_perp(om, data_name)` (source line 109). -/
def get_damping_aniso_perp (env : ModelEnv) (om : ℝ) (dataName : Bool) :
    ℕ → ℕ → ℝ := fun j i =>
  Real.exp (-(anisoKs env dataName j ^ 2 * (1 - env.mu i ^ 2) * env.sigma_nl om))

/-- `PowerDing2018.get_damping_aniso_dd_par(growth, om, data_name)` (line 117). -/
def get_damping_aniso_dd_par (env : ModelEnv) (growth om : ℝ) (dataName : Bool) :
    ℕ → ℕ → ℝ := fun j i =>
  Real.exp (-((1 + (2 + growth) * growth) * anisoKs env dataName j ^ 2 * env.mu i ^ 2
    * env.sigma_dd_nl om))

/-- `PowerDing2018.get_damping_aniso_dd_perp(om, data_name)` (line 125). -/
def get_damping_aniso_dd_perp (env : ModelEnv) (om : ℝ) (dataName : Bool) :
    ℕ → ℕ → ℝ := fun j i =>
  Real.exp (-(anisoKs env dataName j ^ 2 * (1 - env.mu i ^ 2) * env.sigma_dd_nl om))

/-- `PowerDing2018.get_damping_aniso_sd_par(growth, om, data_name)` (line 133). -/
def get_damping_aniso_sd_par (env : ModelEnv) (growth om : ℝ) (dataName : Bool) :
    ℕ → ℕ → ℝ := fun j i =>
  Real.exp (-((1 + growth) * anisoKs env dataName j ^ 2 * env.mu i ^ 2 * env.sigma_sd_nl om))

/-- `PowerDing2018.get_damping_aniso_sd_perp(om, data_name)` (line 141). -/
def get_damping_aniso_sd_perp (env : ModelEnv) (om : ℝ) (dataName : Bool) :
    ℕ → ℕ → ℝ := fun j i =>
  Real.exp (-(anisoKs env dataName j ^ 2 * (1 - env.mu i ^ 2) * env.sigma_sd_nl om))

/-- `PowerDing2018.get_damping_aniso_ss_par(om, data_name)` (line 149). -/
def get_damping_aniso_ss_par (env : ModelEnv) (om : ℝ) (dataName : Bool) :
    ℕ → ℕ → ℝ := fun j i =>
  Real.exp (-(anisoKs env dataName j ^ 2 * env.mu i ^ 2 * env.sigma_ss_nl om))

/-- `PowerDing2018.get_damping_aniso_ss_perp(om, data_name)` (line 157). -/
def get_damping_aniso_ss_perp (env : ModelEnv) (om : ℝ) (dataName : Bool) :
    ℕ → ℕ → ℝ := fun j i =>
  Real.exp (-(anisoKs env dataName j ^ 2 * (1 - env.mu i ^ 2) * env.sigma_ss_nl om))

/-- Modelled from the spec: the polynomial powers used by the base-class
methods `add_three_poly` / `add_five_poly` of `PowerSpectrumFit`, which are
not under src/.  Spec 4.6: the 3-term form uses powers k^-1.5, k^0, k^1.5;
the 5-term form adds k^-2 and k^2.  The evaluation routine dispatches on
`n_poly == 3` and otherwise calls the five-term method, and this dispatch
is mirrored here. -/
def polyPowers (n_poly : ℕ) : List ℝ :=
  if n_poly = 3 then [-(3 / 2), 0, 3 / 2] else [-(3 / 2), 0, 3 / 2, -2, 2]

/-- Modelled from the spec: the broadband shape contribution of pole
`pole` evaluated on the grid `xs`, built by the base-class
`add_three_poly` / `add_five_poly` (not under src/) from the
dataset-specific amplitude parameters `a{pole}_{order}_{dataset}`
(spec 4.6). -/
def polyShape (cfg : Config) (p : Params) (xs : ℕ → ℝ) (dataIdx : ℕ) :
    ℕ → ℕ → ℝ := fun pole j =>
  if pole ∈ cfg.poly_poles then
    ((polyPowers cfg.n_poly).enum.map (fun q => p.a pole (q.1 + 1) dataIdx * xs j ^ q.2)).sum
  else 0

/-- Modelled from the spec: the polynomial template arrays returned by the
base-class `add_three_poly` / `add_five_poly` (not under src/) for analytic
marginalisation, one per (pole, order) on the requested grid `k`
(spec 4.6). -/
def polyTemplates (cfg : Config) (k : ℕ → ℝ) : List (ℕ → ℝ) :=
  cfg.poly_poles.flatMap fun _pole => (polyPowers cfg.n_poly).map fun pw => fun idx => k idx ^ pw

/-- Modelled from the spec: `add_three_poly` / `add_five_poly` of the base
class `PowerSpectrumFit` (not under src/) as called on the isotropic path,
returning the summed broadband shape on the tabulation grid `ks` and the
polynomial set on the requested grid `k` whose first entry is the bias
term (the prefactor), the entry stripped under marginalisation
(spec 4.6). -/
def addPolyIso (cfg : Config) (p : Params) (ks k : ℕ → ℝ) (prefac : ℕ → ℝ) :
    (ℕ → ℝ) × List (ℕ → ℝ) :=
  (fun j => (cfg.poly_poles.map fun pole => polyShape cfg p ks 1 pole j).sum,
   prefac :: polyTemplates cfg k)

/-- Modelled from the spec: `add_three_poly` / `add_five_poly` of the base
class `PowerSpectrumFit` (not under src/) as called on the anisotropic
path, returning the per-pole broadband shape and the polynomial set whose
first entry is the bias term (spec 4.6). -/
def addPolyAniso (cfg : Config) (p : Params) (k : ℕ → ℝ) :
    (ℕ → ℕ → ℝ) × List (ℕ → ℝ) :=
  (polyShape cfg p k 1, (fun _ => 1) :: polyTemplates cfg k)

/-- The key under which the isotropic damping getters are memoized
(`lru_cache` on `(growth, om)`), after the rounding at source
lines 229-230. -/
def dampingKeyIso (p : Params) : ℝ × ℝ := (nround5 (p.b * p.beta), nround5 p.om)

/-- The propagator assembled inline on the isotropic path of
`PowerDing2018.compute_power_spectrum` (source lines 228-252), for the
non-smooth evaluation. -/
def propagatorIso (env : ModelEnv) (cfg : Config) (p : Params) : ℕ → ℕ → ℝ :=
  let om := nround5 p.om
  let growth := nround5 (p.b * p.beta)
  if cfg.recon then
    let damping_dd := get_damping_dd env growth om
    let damping_sd := get_damping_sd env growth om
    let damping_ss := get_damping_ss env om
    let smooth_prefac : ℕ → ℕ → ℝ := fun _ j => env.camb.smoothing_kernel j / p.b
    let bdelta_prefac : ℕ → ℕ → ℝ := fun _ j => 0.5 * p.b_delta / p.b * env.camb.ks j ^ 2
    let kaiser_prefac : ℕ → ℕ → ℝ := fun i j =>
      1 - smooth_prefac i j + p.beta * env.mu i ^ 2 * (1 - env.camb.smoothing_kernel j)
        + bdelta_prefac i j
    fun i j =>
      (kaiser_prefac i j ^ 2 - bdelta_prefac i j ^ 2) * damping_dd i j
        + 2 * kaiser_prefac i j * smooth_prefac i j * damping_sd i j
        + smooth_prefac i j ^ 2 * damping_ss i j
  else
    let damping := get_damping env growth om
    let bdelta_prefac : ℕ → ℕ → ℝ := fun _ j => 0.5 * p.b_delta / p.b * env.camb.ks j ^ 2
    let kaiser_prefac : ℕ → ℕ → ℝ := fun i j => 1 + p.beta * env.mu i ^ 2 + bdelta_prefac i j
    fun i j => (kaiser_prefac i j ^ 2 - bdelta_prefac i j ^ 2) * damping i j

/-- Result of `compute_power_spectrum`: the returned wavenumbers (a 1D grid
on the isotropic path and the `for_corr` anisotropic path, a 2D `(k, mu)`
grid otherwise), the multipole list `pk`, and the polynomial set (absent
when `for_corr`). -/
structure PSResult where
  kprime : (ℕ → ℝ) ⊕ (ℕ → ℕ → ℝ)
  pk : List (ℕ → ℝ)
  poly : Option (List (ℕ → ℝ))

/-- The isotropic branch of `PowerDing2018.compute_power_spectrum`
(source lines 215-272), for a model whose `kvals`/`pksmooth`/`pkratio`
fields are unset so that the basic spectrum comes from
`compute_basic_power_spectrum(p["om"])` on the provider grid. -/
def computePowerSpectrumIso (env : ModelEnv) (cfg : Config) (k : ℕ → ℝ) (p : Params)
    (smooth forCorr : Bool) : PSResult :=
  let ks := env.camb.ks
  let pk_smooth_lin := env.camb.pk_smooth_lin p.om
  let pk_ratio := env.camb.pk_ratio p.om
  let kprime : ℕ → ℝ := if forCorr then k else fun idx => k idx / p.alpha
  let fog : ℕ → ℕ → ℝ := fun i j => 1 / (1 + env.mu i ^ 2 * (ks j ^ 2 * p.sigma_s ^ 2 / 2)) ^ 2
  let pk_smooth : ℕ → ℕ → ℝ := fun i j => p.b ^ 2 * pk_smooth_lin j * fog i j
  let propagator : ℕ → ℕ → ℝ := if smooth then fun _ _ => 0 else propagatorIso env cfg p
  let prefac : ℕ → ℝ :=
    if smooth then fun _ => 1
    else fun idx =>
      env.spline (fun j => env.simpsMu fun i => 1 + pk_ratio j * propagator i j) (kprime idx)
  if forCorr then
    let pk1d : ℕ → ℝ := fun j =>
      env.simpsMu fun i => pk_smooth i j * (1 + pk_ratio j * propagator i j)
    { kprime := Sum.inl kprime, pk := [fun idx => env.spline pk1d (kprime idx)], poly := none }
  else
    let sp := addPolyIso cfg p ks k prefac
    let poly := if cfg.marg.isSome then sp.2.tail else sp.2
    let pk1d : ℕ → ℝ := fun j =>
      env.simpsMu fun i => (pk_smooth i j + sp.1 j) * (1 + pk_ratio j * propagator i j)
    { kprime := Sum.inl kprime, pk := [fun idx => env.spline pk1d (kprime idx)],
      poly := some poly }

/-- The full anisotropic no-reconstruction damping array of source
lines 318-321: the parallel and perpendicular damping arrays raised to the
Alcock-Paczynski powers `1/(alpha^2 (1+eps)^4)` and `(1+eps)^2/alpha^2`. -/
def dampingAnisoNoRecon (env : ModelEnv) (p : Params) (growth om eps : ℝ)
    (dataName : Bool) : ℕ → ℕ → ℝ := fun j i =>
  get_damping_aniso_par env growth om dataName j i ^ (1 / (p.alpha ^ 2 * (1 + eps) ^ 4))
    * get_damping_aniso_perp env om dataName j i ^ ((1 + eps) ^ 2 / p.alpha ^ 2)

/-- The anisotropic dd damping of source lines 297-300. -/
def dampingAnisoDd (env : ModelEnv) (p : Params) (growth om eps : ℝ)
    (dataName : Bool) : ℕ → ℕ → ℝ := fun j i =>
  get_damping_aniso_dd_par env growth om dataName j i ^ (1 / (p.alpha ^ 2 * (1 + eps) ^ 4))
    * get_damping_aniso_dd_perp env om dataName j i ^ ((1 + eps) ^ 2 / p.alpha ^ 2)

/-- The anisotropic sd damping of source lines 301-304. -/
def dampingAnisoSd (env : ModelEnv) (p : Params) (growth om eps : ℝ)
    (dataName : Bool) : ℕ → ℕ → ℝ := fun j i =>
  get_damping_aniso_sd_par env growth om dataName j i ^ (1 / (p.alpha ^ 2 * (1 + eps) ^ 4))
    * get_damping_aniso_sd_perp env om dataName j i ^ ((1 + eps) ^ 2 / p.alpha ^ 2)

/-- The anisotropic ss damping of source lines 305-308. -/
def dampingAnisoSs (env : ModelEnv) (p : Params) (om eps : ℝ)
    (dataName : Bool) : ℕ → ℕ → ℝ := fun j i =>
  get_damping_aniso_ss_par env om dataName j i ^ (1 / (p.alpha ^ 2 * (1 + eps) ^ 4))
    * get_damping_aniso_ss_perp env om dataName j i ^ ((1 + eps) ^ 2 / p.alpha ^ 2)

/-- The propagator assembled inline on the anisotropic path of
`PowerDing2018.compute_power_spectrum` (source lines 292-324), taking the
dilated grid, the Kaiser prefactor and the interpolated smoothing kernel
of that path as arguments. -/
def propagatorAniso (env : ModelEnv) (cfg : Config) (p : Params)
    (kprime kaiser_prefac sprime : ℕ → ℕ → ℝ) (dataName : Bool) : ℕ → ℕ → ℝ :=
  let om := nround5 p.om
  let growth := nround5 (p.b * p.beta)
  let epsilon := nround5 p.epsilon
  let bdelta_prefac : ℕ → ℕ → ℝ := fun idx i =>
    0.5 * p.b_delta / (p.b * kaiser_prefac idx i) * kprime idx i ^ 2
  if cfg.recon then
    let damping_dd := dampingAnisoDd env p growth om epsilon dataName
    let damping_sd := dampingAnisoSd env p growth om epsilon dataName
    let damping_ss := dampingAnisoSs env p om epsilon dataName
    let smooth_prefac : ℕ → ℕ → ℝ := fun idx i => sprime idx i / (p.b * kaiser_prefac idx i)
    fun idx i =>
      ((1 + bdelta_prefac idx i - smooth_prefac idx i) ^ 2 - bdelta_prefac idx i ^ 2)
          * damping_dd idx i
        + 2 * (1 + bdelta_prefac idx i - smooth_prefac idx i) * smooth_prefac idx i
          * damping_sd idx i
        + smooth_prefac idx i ^ 2 * damping_ss idx i
  else
    let damping := dampingAnisoNoRecon env p growth om epsilon dataName
    fun idx i => (1 + 2 * bdelta_prefac idx i) * damping idx i

/-- The anisotropic branch of `PowerDing2018.compute_power_spectrum`
(source lines 274-346). -/
def computePowerSpectrumAniso (env : ModelEnv) (cfg : Config) (k : ℕ → ℝ) (p : Params)
    (smooth forCorr dataName : Bool) : PSResult :=
  let pk_smooth_lin := env.camb.pk_smooth_lin p.om
  let pk_ratio := env.camb.pk_ratio p.om
  let epsilon := nround5 p.epsilon
  let kprime : ℕ → ℕ → ℝ :=
    if forCorr then fun idx _ => k idx
    else fun idx i => k idx / p.alpha * env.kprimefac epsilon i
  let muprime := env.muprime epsilon
  let fog : ℕ → ℕ → ℝ := fun idx i =>
    1 / (1 + muprime i ^ 2 * kprime idx i ^ 2 * p.sigma_s ^ 2 / 2) ^ 2
  let sprime : ℕ → ℕ → ℝ :=
    if cfg.recon then fun idx i => env.spline env.camb.smoothing_kernel (kprime idx i)
    else fun _ _ => 0
  let kaiser_prefac : ℕ → ℕ → ℝ := fun idx i =>
    1 + p.beta * muprime i ^ 2 * (1 - sprime idx i)
  let pk_smooth : ℕ → ℕ → ℝ := fun idx i =>
    p.b ^ 2 * kaiser_prefac idx i ^ 2 * env.spline pk_smooth_lin (kprime idx i) * fog idx i
  let pk2d : ℕ → ℕ → ℝ :=
    if smooth then pk_smooth
    else
      let propagator := propagatorAniso env cfg p kprime kaiser_prefac sprime dataName
      fun idx i =>
        pk_smooth idx i * (1 + env.spline pk_ratio (kprime idx i) * propagator idx i)
  let tri := env.integrate_mu pk2d
  let pkl : List (ℕ → ℝ) :=
    [tri.1, fun _ => 0, tri.2.1, fun _ => 0, tri.2.2, fun _ => 0]
  if forCorr then
    { kprime := Sum.inl k, pk := pkl, poly := none }
  else
    let sp := addPolyAniso cfg p k
    if cfg.marg.isSome then
      { kprime := Sum.inr kprime, pk := pkl, poly := some sp.2.tail }
    else
      { kprime := Sum.inr kprime,
        pk := cfg.poly_poles.foldl
          (fun acc pole => acc.set pole fun idx => acc.getD pole (fun _ => 0) idx + sp.1 pole idx)
          pkl,
        poly := some sp.2 }

/-- `PowerDing2018.compute_power_spectrum` (source line 174): dispatch on
the isotropic flag.  Parameters always carry the bias `b`, so the
`deal_with_ndata` renaming step of lines 211-213 is the identity here. -/
def compute_power_spectrum (env : ModelEnv) (cfg : Config) (k : ℕ → ℝ) (p : Params)
    (smooth forCorr dataName : Bool) : PSResult :=
  if cfg.isotropic then computePowerSpectrumIso env cfg k p smooth forCorr
  else computePowerSpectrumAniso env cfg k p smooth forCorr dataName

/-- Modelled from the spec: the base class `PowerSpectrumFit` (not under
src/) derives `self.recon_type` from the `recon` construction tag, one of
`none|iso|sym|ani` (spec section 6); no reconstruction is recorded as the
string "None". -/
def reconTypeOf (recon : Option String) : String := recon.getD "None"

/-- A declared parameter: name, display label, lower bound, upper bound,
default value (spec section 6). -/
structure ParamDecl where
  name : String
  label : String
  low : ℝ
  high : ℝ
  default : ℝ

/-- The name `f"a{{{pole}}}_{order}"` of a `CorrSeo2016` polynomial
parameter. -/
def polyParamName (pole order : ℕ) : String :=
  "a\x7b" ++ toString pole ++ "\x7d_" ++ toString order

/-- The name `f"a{{{pole}}}_{order}_{{{dataset}}}"` of a `PowerDing2018`
polynomial parameter. -/
def dingPolyName (pole order dataset : ℕ) : String :=
  "a\x7b" ++ toString pole ++ "\x7d_" ++ toString order ++ "_\x7b" ++ toString dataset ++ "\x7d"

/-- `PowerDing2018.__init__` (source lines 17-60): the `n_poly` check is
first, the `recon_type` check runs after the base initializer; on success
the construction-time configuration is produced. -/
def powerDing2018Init (n_poly : ℕ) (recon : Option String) (isotropic : Bool)
    (poly_poles : List ℕ) (marg : Option String) : Except String Config :=
  if ¬(n_poly = 0 ∨ n_poly = 3 ∨ n_poly = 5) then
    Except.error "Models require n_poly to be 0, 3 or 5 polynomial terms per multipole"
  else if reconTypeOf recon = "sym" ∨ reconTypeOf recon = "ani" then
    Except.error "Symmetric and Anisotropic reconstruction not yet available for Ding2018 model"
  else
    Except.ok
      { isotropic := isotropic, recon := recon.isSome, marg := marg, n_poly := n_poly,
        poly_poles := poly_poles }

/-- The polynomial parameter declarations made by
`PowerDing2018.declare_parameters` (source lines 164-172): for each
dataset index and pole, three amplitudes when `n_poly >= 3` and two more
when `n_poly == 5`, all with default value 0. -/
def dingPolyDecls (n_data_poly : ℕ) (poly_poles : List ℕ) (n_poly : ℕ) : List ParamDecl :=
  (List.range n_data_poly).flatMap fun i =>
    poly_poles.flatMap fun pole =>
      (if 3 ≤ n_poly then
        [⟨dingPolyName pole 1 (i + 1), "", -20000, 20000, 0⟩,
         ⟨dingPolyName pole 2 (i + 1), "", -20000, 20000, 0⟩,
         ⟨dingPolyName pole 3 (i + 1), "", -5000, 5000, 0⟩]
      else [])
      ++
      (if n_poly = 5 then
        [⟨dingPolyName pole 4 (i + 1), "", -200, 200, 0⟩,
         ⟨dingPolyName pole 5 (i + 1), "", -3, 3, 0⟩]
      else [])

/-- `PowerDing2018.declare_parameters` (source lines 159-172): the base
declarations, then `beta`, `sigma_s`, `b_delta`, then the polynomial
amplitudes. -/
def dingDeclareParams (base : List ParamDecl) (n_data_poly : ℕ) (poly_poles : List ℕ)
    (n_poly : ℕ) : List ParamDecl :=
  base
    ++ [⟨"beta", "$\\beta$", 0.01, 4, 0.5⟩,
        ⟨"sigma_s", "$\\Sigma_s$", 0.01, 10, 5⟩,
        ⟨"b_delta", "$b_\x7b\\delta\x7d$", -5, 5, 0⟩]
    ++ dingPolyDecls n_data_poly poly_poles n_poly

/-- The observable construction-time state of `CorrSeo2016.__init__`
(source lines 14-57): the pole list actually used, the fixed-parameter
names handed to the base initializer, and the `set_default` calls made
when marginalising. -/
structure CorrSeoState where
  poly_poles : List ℕ
  fix_params : List String
  marg : Option String
  defaults : List (String × ℝ)

/-- `CorrSeo2016.__init__` (source lines 14-57): isotropic construction
forces `poly_poles = [0]`; with marginalisation the three polynomial
amplitudes of every pole are appended to the fixed parameters and their
defaults are set to 0. -/
def corrSeo2016Init (fix_params : List String) (isotropic : Bool) (poly_poles : List ℕ)
    (marg : Option String) : CorrSeoState :=
  let poly_poles := if isotropic then [0] else poly_poles
  let fix_params :=
    if marg.isSome then
      fix_params ++ poly_poles.flatMap fun pole =>
        [polyParamName pole 1, polyParamName pole 2, polyParamName pole 3]
    else fix_params
  { poly_poles := poly_poles, fix_params := fix_params, marg := marg,
    defaults :=
      if marg.isSome then
        poly_poles.flatMap fun pole =>
          [(polyParamName pole 1, 0), (polyParamName pole 2, 0), (polyParamName pole 3, 0)]
      else [] }

/-- The polynomial parameter declarations made by
`CorrSeo2016.declare_parameters` (source lines 65-68). -/
def corrSeoPolyDecls (poly_poles : List ℕ) : List ParamDecl :=
  poly_poles.flatMap fun pole =>
    [⟨polyParamName pole 1, "$a_\x7b" ++ toString pole ++ ",1\x7d$", -100, 100, 0⟩,
     ⟨polyParamName pole 2, "$a_\x7b" ++ toString pole ++ ",2\x7d$", -2, 2, 0⟩,
     ⟨polyParamName pole 3, "$a_\x7b" ++ toString pole ++ ",3\x7d$", -0.2, 0.2, 0⟩]

/-- `CorrSeo2016.declare_parameters` (source lines 59-68): the base
declarations, then `b`, `beta`, `sigma_s`, then the per-pole polynomial
amplitudes. -/
def corrSeoDeclareParams (base : List ParamDecl) (poly_poles : List ℕ) : List ParamDecl :=
  base
    ++ [⟨"b", "$b$", 0.1, 10, 1⟩,
        ⟨"beta", "$\\beta$", 0.01, 4, 0.5⟩,
        ⟨"sigma_s", "$\\Sigma_s$", 0.01, 10, 5⟩]
    ++ corrSeoPolyDecls poly_poles

/-- A concrete model environment used to instantiate theorems with
hypotheses at explicit inputs. -/
def envW : ModelEnv where
  camb :=
    { ks := fun j => (j : ℝ), smoothing_kernel := fun _ => 1 / 2,
      pk_smooth_lin := fun _ _ => 1, pk_ratio := fun _ _ => 1 }
  mu := fun _ => 1 / 2
  nmu := 1
  simpsMu := fun f => f 0
  spline := fun tbl _ => tbl 0
  integrate_mu := fun a => (fun idx => a idx 0, fun _ => 0, fun _ => 0)
  kprimefac := fun _ _ => 1
  muprime := fun _ _ => 1 / 2
  sigma_nl := fun _ => 1
  sigma_dd_nl := fun _ => 1
  sigma_sd_nl := fun _ => 1
  sigma_ss_nl := fun _ => 1
  ks_input := fun j => (j : ℝ)

/-- A concrete parameter set used to instantiate theorems. -/
def paramsW : Params where
  om := 3 / 10
  b := 2
  beta := 1 / 4
  sigma_s := 5
  b_delta := 0
  alpha := 1
  epsilon := 0
  a := fun _ _ _ => 0

/-- A second concrete parameter set with the same `om` and the same
product `b * beta` as `paramsW` but different `b` and `beta`. -/
def paramsW2 : Params where
  om := 3 / 10
  b := 1
  beta := 1 / 2
  sigma_s := 5
  b_delta := 0
  alpha := 1
  epsilon := 0
  a := fun _ _ _ => 0

/-- A concrete reconstruction-enabled isotropic configuration. -/
def cfgRecon : Config where
  isotropic := true
  recon := true
  marg := some "full"
  n_poly := 5
  poly_poles := [0, 2]

/-- A concrete no-reconstruction isotropic configuration. -/
def cfgNoRecon : Config where
  isotropic := true
  recon := false
  marg := none
  n_poly := 3
  poly_poles := [0]

/-- A concrete anisotropic configuration. -/
def cfgAnisoW : Config where
  isotropic := false
  recon := false
  marg := none
  n_poly := 5
  poly_poles := [0, 2]

/-- C1: in the non-smooth isotropic evaluation of
`PowerDing2018.compute_power_spectrum`, for every reconstruction-enabled
configuration the propagator equals
`(kaiser_prefac^2 - bdelta_prefac^2) * damping_dd
 + 2 * kaiser_prefac * smooth_prefac * damping_sd
 + smooth_prefac^2 * damping_ss`,
and for every no-reconstruction configuration it reduces to
`(kaiser_prefac^2 - bdelta_prefac^2) * damping`, where `kaiser_prefac` is
the Kaiser RSD factor including the non-linear-bias term and
`bdelta_prefac = 0.5 * b_delta / b * k^2`.  `propagatorIso` is the
propagator used by `computePowerSpectrumIso` when `smooth` is false. -/
theorem c1_propagator_formula (env : ModelEnv) (cfg : Config) (p : Params) (i j : ℕ) :
    (cfg.recon = true →
      propagatorIso env cfg p i j =
        ((1 - env.camb.smoothing_kernel j / p.b
            + p.beta * env.mu i ^ 2 * (1 - env.camb.smoothing_kernel j)
            + 0.5 * p.b_delta / p.b * env.camb.ks j ^ 2) ^ 2
          - (0.5 * p.b_delta / p.b * env.camb.ks j ^ 2) ^ 2)
          * get_damping_dd env (nround5 (p.b * p.beta)) (nround5 p.om) i j
        + 2 * (1 - env.camb.smoothing_kernel j / p.b
            + p.beta * env.mu i ^ 2 * (1 - env.camb.smoothing_kernel j)
            + 0.5 * p.b_delta / p.b * env.camb.ks j ^ 2)
          * (env.camb.smoothing_kernel j / p.b)
          * get_damping_sd env (nround5 (p.b * p.beta)) (nround5 p.om) i j
        + (env.camb.smoothing_kernel j / p.b) ^ 2
          * get_damping_ss env (nround5 p.om) i j) ∧
    (cfg.recon = false →
      propagatorIso env cfg p i j =
        ((1 + p.beta * env.mu i ^ 2 + 0.5 * p.b_delta / p.b * env.camb.ks j ^ 2) ^ 2
          - (0.5 * p.b_delta / p.b * env.camb.ks j ^ 2) ^ 2)
          * get_damping env (nround5 (p.b * p.beta)) (nround5 p.om) i j) := by
  constructor <;> intro h <;> simp [propagatorIso, h]

/-- Witness for C1 at concrete inputs, once with reconstruction enabled
and once without. -/
theorem c1_propagator_formula_witness :
    (cfgRecon.recon = true ∧
      propagatorIso envW cfgRecon paramsW 0 0 =
        ((1 - envW.camb.smoothing_kernel 0 / paramsW.b
            + paramsW.beta * envW.mu 0 ^ 2 * (1 - envW.camb.smoothing_kernel 0)
            + 0.5 * paramsW.b_delta / paramsW.b * envW.camb.ks 0 ^ 2) ^ 2
          - (0.5 * paramsW.b_delta / paramsW.b * envW.camb.ks 0 ^ 2) ^ 2)
          * get_damping_dd envW (nround5 (paramsW.b * paramsW.beta)) (nround5 paramsW.om) 0 0
        + 2 * (1 - envW.camb.smoothing_kernel 0 / paramsW.b
            + paramsW.beta * envW.mu 0 ^ 2 * (1 - envW.camb.smoothing_kernel 0)
            + 0.5 * paramsW.b_delta / paramsW.b * envW.camb.ks 0 ^ 2)
          * (envW.camb.smoothing_kernel 0 / paramsW.b)
          * get_damping_sd envW (nround5 (paramsW.b * paramsW.beta)) (nround5 paramsW.om) 0 0
        + (envW.camb.smoothing_kernel 0 / paramsW.b) ^ 2
          * get_damping_ss envW (nround5 paramsW.om) 0 0) ∧
    (cfgNoRecon.recon = false ∧
      propagatorIso envW cfgNoRecon paramsW 0 0 =
        ((1 + paramsW.beta * envW.mu 0 ^ 2
            + 0.5 * paramsW.b_delta / paramsW.b * envW.camb.ks 0 ^ 2) ^ 2
          - (0.5 * paramsW.b_delta / paramsW.b * envW.camb.ks 0 ^ 2) ^ 2)
          * get_damping envW (nround5 (paramsW.b * paramsW.beta)) (nround5 paramsW.om) 0 0) :=
  ⟨⟨rfl, (c1_propagator_formula envW cfgRecon paramsW 0 0).1 rfl⟩,
   ⟨rfl, (c1_propagator_formula envW cfgNoRecon paramsW 0 0).2 rfl⟩⟩

/-- C2: calling the isotropic `compute_power_spectrum` with `smooth=True`
forces the propagator contribution to zero and returns the pure broadband
prediction: the monopole is the mu-integrated smooth-spectrum term (bias
squared times the smooth linear spectrum times the Fingers-of-God factor,
plus the polynomial shape terms when `for_corr` is false), with no
BAO-damping or wiggle-ratio contribution anywhere in the result. -/
theorem c2_smooth_is_broadband (env : ModelEnv) (cfg : Config) (k : ℕ → ℝ) (p : Params)
    (forCorr : Bool) :
    (computePowerSpectrumIso env cfg k p true forCorr).pk =
      [fun idx =>
        env.spline
          (fun j => env.simpsMu fun i =>
            p.b ^ 2 * env.camb.pk_smooth_lin p.om j
              * (1 / (1 + env.mu i ^ 2 * (env.camb.ks j ^ 2 * p.sigma_s ^ 2 / 2)) ^ 2)
            + (if forCorr then 0 else (addPolyIso cfg p env.camb.ks k fun _ => 1).1 j))
          ((if forCorr then k else fun idx => k idx / p.alpha) idx)] := by
  cases forCorr <;>
    · simp only [computePowerSpectrumIso, if_true, if_false, Bool.false_eq_true, ite_true,
        ite_false]
      congr 1
      funext idx
      congr 1
      funext j
      congr 1
      funext i
      ring

/-- C3: `PowerDing2018.get_damping` gives the array whose `(mu, k)` entry
is `exp(-(1 + (2+f) f mu^2) k^2 sigma^2)` on the model's mu grid and the
provider's k grid, and on the anisotropic path the damping is the parallel
damping array raised to the power `1/(alpha^2 (1+eps)^4)` times the
perpendicular damping array raised to the power `(1+eps)^2/alpha^2`, for
the plain kernel and for each of the dd/sd/ss reconstruction kernels. -/
theorem c3_damping_formulas (env : ModelEnv) (p : Params) (growth om eps : ℝ)
    (dataName : Bool) (i j : ℕ) :
    get_damping env growth om i j =
      Real.exp (-((1 + (2 + growth) * growth * env.mu i ^ 2) * env.camb.ks j ^ 2
        * env.sigma_nl om)) ∧
    dampingAnisoNoRecon env p growth om eps dataName j i =
      get_damping_aniso_par env growth om dataName j i
          ^ (1 / (p.alpha ^ 2 * (1 + eps) ^ 4))
        * get_damping_aniso_perp env om dataName j i ^ ((1 + eps) ^ 2 / p.alpha ^ 2) ∧
    dampingAnisoDd env p growth om eps dataName j i =
      get_damping_aniso_dd_par env growth om dataName j i
          ^ (1 / (p.alpha ^ 2 * (1 + eps) ^ 4))
        * get_damping_aniso_dd_perp env om dataName j i ^ ((1 + eps) ^ 2 / p.alpha ^ 2) ∧
    dampingAnisoSd env p growth om eps dataName j i =
      get_damping_aniso_sd_par env growth om dataName j i
          ^ (1 / (p.alpha ^ 2 * (1 + eps) ^ 4))
        * get_damping_aniso_sd_perp env om dataName j i ^ ((1 + eps) ^ 2 / p.alpha ^ 2) ∧
    dampingAnisoSs env p om eps dataName j i =
      get_damping_aniso_ss_par env om dataName j i
          ^ (1 / (p.alpha ^ 2 * (1 + eps) ^ 4))
        * get_damping_aniso_ss_perp env om dataName j i ^ ((1 + eps) ^ 2 / p.alpha ^ 2) :=
  ⟨rfl, rfl, rfl, rfl, rfl⟩

/-- Monotonicity of a damping exponential `exp(-(c k^2 s))` along `k`, for
a nonnegative coefficient and damping scale on nonnegative wavenumbers. -/
theorem damp_exp_antitone (c s kk kk' : ℝ) (hc : 0 ≤ c) (hs : 0 ≤ s) (h0 : 0 ≤ kk)
    (hk : kk ≤ kk') :
    Real.exp (-(c * kk' ^ 2 * s)) ≤ Real.exp (-(c * kk ^ 2 * s)) := by
  apply Real.exp_le_exp.mpr
  have h2 : kk ^ 2 ≤ kk' ^ 2 := pow_le_pow_left₀ h0 hk 2
  have h3 := mul_le_mul_of_nonneg_right (mul_le_mul_of_nonneg_left h2 hc) hs
  linarith

/-- Counterexample to C4 as stated: the claim quantifies over every growth
value, but the sd damping kernel `exp(-(1 + growth mu^2) k^2 sigma_sd)`
has a negative exponent coefficient once `growth < -1/mu^2`.  In the
environment `envW` (mu grid value 1/2, strictly increasing nonnegative
wavenumbers `ks j = j`, damping scale 1 > 0), at growth `-8` the array
returned by `PowerDing2018.get_damping_sd` strictly increases from the
first to the second wavenumber at fixed mu, so it is not monotonically
decreasing along the k axis. -/
theorem c4_counterexample :
    get_damping_sd envW (-8) 0 0 0 < get_damping_sd envW (-8) 0 0 1 := by
  have h : ∀ j : ℕ, get_damping_sd envW (-8) 0 0 j
      = Real.exp (-((1 + (-8) * (1 / 2 : ℝ) ^ 2) * (j : ℝ) ^ 2 * 1)) := fun _ => rfl
  rw [h 0, h 1, Real.exp_lt_exp]
  norm_num

/-- C4 amended: for every growth value at least -1 (in particular every
nonnegative growth, as produced by the declared positive ranges of `b` and
`beta`), every mu-grid value in [0, 1] and strictly positive precomputed
damping scales, each damping array returned by `PowerDing2018.get_damping`
and its dd/sd/ss variants is monotonically decreasing along the k axis at
fixed mu, given that the (nonnegative) wavenumber grid is monotonically
increasing. -/
theorem c4_damping_antitone (env : ModelEnv) (growth om : ℝ) (i j j' : ℕ)
    (hg : -1 ≤ growth) (hmu0 : 0 ≤ env.mu i) (hmu1 : env.mu i ≤ 1)
    (hks0 : 0 ≤ env.camb.ks j) (hks : env.camb.ks j ≤ env.camb.ks j')
    (hs1 : 0 < env.sigma_nl om) (hs2 : 0 < env.sigma_dd_nl om)
    (hs3 : 0 < env.sigma_sd_nl om) (hs4 : 0 < env.sigma_ss_nl om) :
    get_damping env growth om i j' ≤ get_damping env growth om i j ∧
    get_damping_dd env growth om i j' ≤ get_damping_dd env growth om i j ∧
    get_damping_sd env growth om i j' ≤ get_damping_sd env growth om i j ∧
    get_damping_ss env om i j' ≤ get_damping_ss env om i j := by
  have hmusq : env.mu i ^ 2 ≤ 1 := by nlinarith
  have hcpl : 0 ≤ 1 + (2 + growth) * growth * env.mu i ^ 2 := by
    nlinarith [mul_nonneg (sq_nonneg (growth + 1)) (sq_nonneg (env.mu i))]
  have hcsd : 0 ≤ 1 + growth * env.mu i ^ 2 := by
    nlinarith [mul_nonneg (by linarith : (0 : ℝ) ≤ growth + 1) (sq_nonneg (env.mu i))]
  refine ⟨damp_exp_antitone _ _ _ _ hcpl hs1.le hks0 hks,
    damp_exp_antitone _ _ _ _ hcpl hs2.le hks0 hks,
    damp_exp_antitone _ _ _ _ hcsd hs3.le hks0 hks, ?_⟩
  apply Real.exp_le_exp.mpr
  have h2 : env.camb.ks j ^ 2 ≤ env.camb.ks j' ^ 2 := pow_le_pow_left₀ hks0 hks 2
  have h3 := mul_le_mul_of_nonneg_right h2 hs4.le
  linarith

/-- Witness for the amended C4 at concrete inputs. -/
theorem c4_damping_antitone_witness :
    (-1 : ℝ) ≤ 0 ∧ (0 : ℝ) < 1 ∧
    (get_damping envW 0 0 0 1 ≤ get_damping envW 0 0 0 0 ∧
     get_damping_dd envW 0 0 0 1 ≤ get_damping_dd envW 0 0 0 0 ∧
     get_damping_sd envW 0 0 0 1 ≤ get_damping_sd envW 0 0 0 0 ∧
     get_damping_ss envW 0 0 1 ≤ get_damping_ss envW 0 0 0) :=
  ⟨by norm_num, by norm_num,
    c4_damping_antitone envW 0 0 0 0 1 (by norm_num) (by norm_num [envW])
      (by norm_num [envW]) (by norm_num [envW]) (by norm_num [envW])
      (by norm_num [envW]) (by norm_num [envW]) (by norm_num [envW]) (by norm_num [envW])⟩

/-- C5: under marginalization mode "full" or "partial", the polynomial set
returned by `compute_power_spectrum` has its first (bias) entry stripped
(what remains are exactly the polynomial templates, the raw set being the
bias prefactor consed onto them), the polynomial amplitude parameters
declared by `PowerDing2018` all have default value 0, and in
`CorrSeo2016.__init__` the polynomial amplitudes of every fitted pole are
appended to the fixed-parameter set and their defaults are set to 0. -/
theorem c5_marg_poly (env : ModelEnv) (cfg : Config) (k : ℕ → ℝ) (p : Params)
    (smooth : Bool) (prefac : ℕ → ℝ) (fix_params : List String) (isotropic : Bool)
    (poly_poles : List ℕ) (n_data_poly : ℕ)
    (hmarg : cfg.marg = some "full" ∨ cfg.marg = some "partial") :
    (computePowerSpectrumIso env cfg k p smooth false).poly =
      some (polyTemplates cfg k) ∧
    (addPolyIso cfg p env.camb.ks k prefac).2 = prefac :: polyTemplates cfg k ∧
    (∀ d ∈ dingPolyDecls n_data_poly poly_poles cfg.n_poly, ParamDecl.default d = 0) ∧
    (∀ pole ∈ (corrSeo2016Init fix_params isotropic poly_poles cfg.marg).poly_poles,
      ∀ o ∈ [1, 2, 3],
        polyParamName pole o
            ∈ (corrSeo2016Init fix_params isotropic poly_poles cfg.marg).fix_params ∧
          (polyParamName pole o, (0 : ℝ))
            ∈ (corrSeo2016Init fix_params isotropic poly_poles cfg.marg).defaults) := by
  have him : cfg.marg.isSome = true := by rcases hmarg with h | h <;> simp [h]
  refine ⟨?_, rfl, ?_, ?_⟩
  · cases smooth <;> simp [computePowerSpectrumIso, addPolyIso, him]
  · intro d hd
    simp only [dingPolyDecls, List.mem_flatMap, List.mem_range] at hd
    obtain ⟨i, -, pole, -, hmem⟩ := hd
    rw [List.mem_append] at hmem
    rcases hmem with h | h <;> split_ifs at h <;>
      simp only [List.mem_cons, List.not_mem_nil, or_false] at h <;>
      first
        | exact absurd h (fun hf => hf)
        | (rcases h with rfl | rfl | rfl <;> rfl)
  · intro pole hpole o ho
    simp only [corrSeo2016Init, him, if_true] at hpole ⊢
    simp only [List.mem_cons, List.not_mem_nil, or_false] at ho
    constructor
    · rw [List.mem_append]
      right
      rw [List.mem_flatMap]
      refine ⟨pole, hpole, ?_⟩
      rcases ho with rfl | rfl | rfl <;> simp
    · rw [List.mem_flatMap]
      refine ⟨pole, hpole, ?_⟩
      rcases ho with rfl | rfl | rfl <;> simp

/-- Witness for C5: marginalization mode "full" at concrete inputs; the
returned polynomial set is the template list with the bias head removed. -/
theorem c5_marg_poly_witness :
    (cfgRecon.marg = some "full" ∨ cfgRecon.marg = some "partial") ∧
    (computePowerSpectrumIso envW cfgRecon (fun j => (j : ℝ)) paramsW false false).poly =
      some (polyTemplates cfgRecon fun j => (j : ℝ)) :=
  ⟨Or.inl rfl,
    (c5_marg_poly envW cfgRecon (fun j => (j : ℝ)) paramsW false (fun _ => 1) ["om"] true
      [0, 2] 1 (Or.inl rfl)).1⟩

/-- `List.set` at one position leaves `getD` at any other position
unchanged. -/
theorem getD_set_ne {α : Type} (l : List α) (a d : α) :
    ∀ n m : ℕ, n ≠ m → (l.set n a).getD m d = l.getD m d := by
  induction l with
  | nil => intro n m _; rfl
  | cons x t ih =>
    intro n m h
    cases n with
    | zero =>
      cases m with
      | zero => exact absurd rfl h
      | succ m => rfl
    | succ n =>
      cases m with
      | zero => rfl
      | succ m => exact ih n m (by omega)

/-- Folding `List.set` over a list of even positions preserves the length
of the accumulator and its entries at every odd position. -/
theorem foldl_set_even_preserves (g : List (ℕ → ℝ) → ℕ → ℕ → ℝ) :
    ∀ l : List ℕ, (∀ q ∈ l, q % 2 = 0) → ∀ acc : List (ℕ → ℝ),
      ((l.foldl (fun a pole => a.set pole (g a pole)) acc).length = acc.length ∧
        ∀ m, m % 2 = 1 →
          (l.foldl (fun a pole => a.set pole (g a pole)) acc).getD m (fun _ => 0)
            = acc.getD m (fun _ => 0)) := by
  intro l
  induction l with
  | nil => exact fun _ acc => ⟨rfl, fun _ _ => rfl⟩
  | cons q t ih =>
    intro hl acc
    have hq := hl q (List.mem_cons_self q t)
    obtain ⟨ihlen, ihget⟩ :=
      ih (fun x hx => hl x (List.mem_cons_of_mem q hx)) (acc.set q (g acc q))
    simp only [List.foldl_cons]
    refine ⟨by rw [ihlen, List.length_set], fun m hm => ?_⟩
    rw [ihget m hm, getD_set_ne _ _ _ q m (by omega)]

/-- C6: in isotropic mode `compute_power_spectrum` returns only the
monopole (the multipole list has a single entry, so the quadrupole and
hexadecapole are absent), while in anisotropic mode it returns a six-entry
list holding the monopole, quadrupole and hexadecapole with zero arrays in
the unused odd slots, provided the fitted poles are among 0, 2, 4. -/
theorem c6_multipole_slots (env : ModelEnv) (cfg : Config) (k : ℕ → ℝ) (p : Params)
    (smooth forCorr dataName : Bool)
    (hpoles : ∀ q ∈ cfg.poly_poles, q = 0 ∨ q = 2 ∨ q = 4) :
    (cfg.isotropic = true →
      (compute_power_spectrum env cfg k p smooth forCorr dataName).pk.length = 1) ∧
    (cfg.isotropic = false →
      (compute_power_spectrum env cfg k p smooth forCorr dataName).pk.length = 6 ∧
      (compute_power_spectrum env cfg k p smooth forCorr dataName).pk.getD 1 (fun _ => 0)
          = (fun _ => (0 : ℝ)) ∧
      (compute_power_spectrum env cfg k p smooth forCorr dataName).pk.getD 3 (fun _ => 0)
          = (fun _ => (0 : ℝ)) ∧
      (compute_power_spectrum env cfg k p smooth forCorr dataName).pk.getD 5 (fun _ => 0)
          = (fun _ => (0 : ℝ))) := by
  have hev : ∀ q ∈ cfg.poly_poles, q % 2 = 0 := fun q hq => by
    rcases hpoles q hq with rfl | rfl | rfl <;> rfl
  constructor
  · intro hiso
    cases forCorr <;> simp [compute_power_spectrum, hiso, computePowerSpectrumIso]
  · intro hiso
    simp only [compute_power_spectrum, hiso, Bool.false_eq_true, if_false,
      computePowerSpectrumAniso]
    cases forCorr
    · cases him : cfg.marg.isSome
      · simp only [Bool.false_eq_true, if_false, him]
        obtain ⟨hlen, hget⟩ := foldl_set_even_preserves
          (fun a pole => fun idx =>
            a.getD pole (fun _ => 0) idx
              + (addPolyAniso cfg p k).1 pole idx)
          cfg.poly_poles hev _
        exact ⟨hlen, hget 1 rfl, hget 3 rfl, hget 5 rfl⟩
      · simp [him]
    · simp

/-- Witness for C6: an isotropic and an anisotropic configuration with
poles {0, 2}, at concrete inputs. -/
theorem c6_multipole_slots_witness :
    (∀ q ∈ cfgRecon.poly_poles, q = 0 ∨ q = 2 ∨ q = 4) ∧
    (compute_power_spectrum envW cfgRecon (fun j => (j : ℝ)) paramsW false false
        false).pk.length = 1 ∧
    (compute_power_spectrum envW cfgAnisoW (fun j => (j : ℝ)) paramsW false false
        false).pk.length = 6 :=
  ⟨by decide,
    (c6_multipole_slots envW cfgRecon (fun j => (j : ℝ)) paramsW false false false
      (by decide)).1 rfl,
    ((c6_multipole_slots envW cfgAnisoW (fun j => (j : ℝ)) paramsW false false false
      (by decide)).2 rfl).1⟩

/-- C7: two parameter sets whose `om` and whose product `b * beta` round to
the same 5-decimal values produce the same damping cache key and identical
damping arrays in the non-smooth isotropic evaluation: the damping depends
on `om` and the growth only through their values rounded to 5 decimals. -/
theorem c7_rounded_cache_key (env : ModelEnv) (p1 p2 : Params)
    (hom : nround5 p1.om = nround5 p2.om)
    (hgr : nround5 (p1.b * p1.beta) = nround5 (p2.b * p2.beta)) :
    dampingKeyIso p1 = dampingKeyIso p2 ∧
    get_damping env (nround5 (p1.b * p1.beta)) (nround5 p1.om)
      = get_damping env (nround5 (p2.b * p2.beta)) (nround5 p2.om) ∧
    get_damping_dd env (nround5 (p1.b * p1.beta)) (nround5 p1.om)
      = get_damping_dd env (nround5 (p2.b * p2.beta)) (nround5 p2.om) ∧
    get_damping_sd env (nround5 (p1.b * p1.beta)) (nround5 p1.om)
      = get_damping_sd env (nround5 (p2.b * p2.beta)) (nround5 p2.om) ∧
    get_damping_ss env (nround5 p1.om) = get_damping_ss env (nround5 p2.om) := by
  refine ⟨?_, ?_, ?_, ?_, ?_⟩ <;> simp [dampingKeyIso, hom, hgr]

/-- Witness for C7: `paramsW` and `paramsW2` share `om = 3/10` and
`b * beta = 1/2` through different `b`, `beta` factorizations. -/
theorem c7_rounded_cache_key_witness :
    nround5 paramsW.om = nround5 paramsW2.om ∧
    nround5 (paramsW.b * paramsW.beta) = nround5 (paramsW2.b * paramsW2.beta) ∧
    dampingKeyIso paramsW = dampingKeyIso paramsW2 :=
  have hom : nround5 paramsW.om = nround5 paramsW2.om := rfl
  have hgr : nround5 (paramsW.b * paramsW.beta) = nround5 (paramsW2.b * paramsW2.beta) := by
    have : paramsW.b * paramsW.beta = paramsW2.b * paramsW2.beta := by
      norm_num [paramsW, paramsW2]
    rw [this]
  ⟨hom, hgr, (c7_rounded_cache_key envW paramsW paramsW2 hom hgr).1⟩

/-- C8: with `for_corr=True`, `compute_power_spectrum` skips polynomial
injection (the returned polynomial set is absent) and performs no alpha
dilation: the returned wavenumber grid is the input `k` grid, on both the
isotropic and the anisotropic path. -/
theorem c8_for_corr (env : ModelEnv) (cfg : Config) (k : ℕ → ℝ) (p : Params)
    (smooth dataName : Bool) :
    (compute_power_spectrum env cfg k p smooth true dataName).poly = none ∧
    (compute_power_spectrum env cfg k p smooth true dataName).kprime = Sum.inl k := by
  cases hiso : cfg.isotropic <;>
    simp [compute_power_spectrum, hiso, computePowerSpectrumIso, computePowerSpectrumAniso]

/-- C9: constructing `PowerDing2018` with a polynomial-term count other
than 0, 3 or 5 yields a construction-time error, as does constructing it
with reconstruction type "sym" or "ani"; in both cases no configuration is
produced. -/
theorem c9_init_errors (n_poly : ℕ) (recon : Option String) (isotropic : Bool)
    (poly_poles : List ℕ) (marg : Option String) :
    (¬(n_poly = 0 ∨ n_poly = 3 ∨ n_poly = 5) →
      ∃ msg, powerDing2018Init n_poly recon isotropic poly_poles marg
        = Except.error msg) ∧
    ((recon = some "sym" ∨ recon = some "ani") →
      ∃ msg, powerDing2018Init n_poly recon isotropic poly_poles marg
        = Except.error msg) := by
  constructor
  · intro h
    refine ⟨"Models require n_poly to be 0, 3 or 5 polynomial terms per multipole", ?_⟩
    unfold powerDing2018Init
    rw [if_pos h]
  · intro h
    have hrt : reconTypeOf recon = "sym" ∨ reconTypeOf recon = "ani" := by
      rcases h with rfl | rfl
      · exact Or.inl rfl
      · exact Or.inr rfl
    unfold powerDing2018Init
    by_cases hn : ¬(n_poly = 0 ∨ n_poly = 3 ∨ n_poly = 5)
    · exact ⟨"Models require n_poly to be 0, 3 or 5 polynomial terms per multipole",
        by rw [if_pos hn]⟩
    · exact ⟨"Symmetric and Anisotropic reconstruction not yet available for Ding2018 model",
        by rw [if_neg hn, if_pos hrt]⟩

/-- Witness for C9: `n_poly = 2` fails the count check, and `recon="sym"`
fails the reconstruction check even with a valid count. -/
theorem c9_init_errors_witness :
    ¬((2 : ℕ) = 0 ∨ (2 : ℕ) = 3 ∨ (2 : ℕ) = 5) ∧
    (∃ msg, powerDing2018Init 2 none true [0] none = Except.error msg) ∧
    ((some "sym" = some "sym" ∨ (some "sym" : Option String) = some "ani")) ∧
    (∃ msg, powerDing2018Init 5 (some "sym") true [0] none = Except.error msg) :=
  ⟨by decide, (c9_init_errors 2 none true [0] none).1 (by decide),
    Or.inl rfl, (c9_init_errors 5 (some "sym") true [0] none).2 (Or.inl rfl)⟩

/-- C10: constructing `CorrSeo2016` with `isotropic=True` forces the pole
list to `[0]` whatever pole list is passed, so the polynomial parameters
declared by `declare_parameters` for an isotropic instance are exactly
`a{0}_1`, `a{0}_2`, `a{0}_3` (after the base declarations and `b`, `beta`,
`sigma_s`). -/
theorem c10_iso_forces_pole0 (fix_params : List String) (poly_poles : List ℕ)
    (marg : Option String) (base : List ParamDecl) :
    (corrSeo2016Init fix_params true poly_poles marg).poly_poles = [0] ∧
    (corrSeoDeclareParams base
        (corrSeo2016Init fix_params true poly_poles marg).poly_poles).map ParamDecl.name
      = base.map ParamDecl.name
          ++ ["b", "beta", "sigma_s", "a\x7b0\x7d_1", "a\x7b0\x7d_2", "a\x7b0\x7d_3"] := by
  have h1 : (corrSeo2016Init fix_params true poly_poles marg).poly_poles = [0] := by
    simp [corrSeo2016Init]
  refine ⟨h1, ?_⟩
  rw [h1]
  simp only [corrSeoDeclareParams, List.map_append, List.append_assoc]
  exact congrArg (base.map ParamDecl.name ++ ·) (by decide)

end Barry
